import Mathlib

/-!
Shallow embedding of mypypong (src/mypypong/pong.py), a single-file Pong
clone built on a tkinter canvas.

Modelling conventions:
* coordinates are rationals (the Python values are all exact dyadic floats);
* the tkinter canvas is a list of items, each with an id, a bounding box,
  a fill colour, an optional brick tag and a text payload, plus a counter
  producing fresh ids;
* the handle-to-entity registry Game.items is an association list from
  canvas item ids to entity data (paddle marker, or brick hit points);
* fallible Python operations (KeyError on the brick colour table, method
  calls on a missing ball, coordinate reads of deleted items) return Option,
  with none standing for a raised exception.
-/

namespace Pong

/- The Batteries rational arithmetic is marked irreducible, which blocks
the evaluation of concrete game states below; restore the default
transparency for this file. -/
attribute [local semireducible] Rat.add Rat.sub Rat.mul Rat.inv

/-- Bounding box as returned by canvas.coords: left, top, right, bottom. -/
structure Pos where
  left : ℚ
  top : ℚ
  right : ℚ
  bottom : ℚ
  deriving DecidableEq, Repr

/-- One canvas item: id, bounding box, fill colour, whether it carries the
brick tag, and its text payload (empty for shapes).  Text items are given a
degenerate box at their anchor point; they are never in the registry, so
their extent is irrelevant to the simulation. -/
structure CItem where
  id : Nat
  pos : Pos
  fill : String
  brickTag : Bool
  text : String
  deriving DecidableEq, Repr

/-- The tkinter canvas: a fresh-id counter and the items in stacking
(creation) order. -/
structure Canvas where
  nextId : Nat
  citems : List CItem
  deriving DecidableEq, Repr

/-- First item with the given id (tkinter ids are unique). -/
def itemsFind : List CItem → Nat → Option CItem
  | [], _ => none
  | it :: rest, id => if it.id = id then some it else itemsFind rest id

/-- canvas.delete: drop every item with the given id. -/
def eraseItems : List CItem → Nat → List CItem
  | [], _ => []
  | it :: rest, id =>
      if it.id = id then eraseItems rest id else it :: eraseItems rest id

/-- Apply an update to the item with the given id (canvas.move,
canvas.itemconfig). -/
def updItems : List CItem → Nat → (CItem → CItem) → List CItem
  | [], _, _ => []
  | it :: rest, id, u =>
      (if it.id = id then u it else it) :: updItems rest id u

def Canvas.findItem (c : Canvas) (id : Nat) : Option CItem :=
  itemsFind c.citems id

/-- canvas.coords. -/
def Canvas.coordsOf (c : Canvas) (id : Nat) : Option Pos :=
  (c.findItem id).map (fun it => it.pos)

/-- Text payload of an item. -/
def Canvas.textOf (c : Canvas) (id : Nat) : Option String :=
  (c.findItem id).map (fun it => it.text)

def Canvas.deleteItem (c : Canvas) (id : Nat) : Canvas :=
  { c with citems := eraseItems c.citems id }

def Canvas.updItem (c : Canvas) (id : Nat) (u : CItem → CItem) : Canvas :=
  { c with citems := updItems c.citems id u }

/-- canvas.move id dx dy. -/
def Canvas.moveBy (c : Canvas) (id : Nat) (dx dy : ℚ) : Canvas :=
  c.updItem id (fun it =>
    { it with pos := ⟨it.pos.left + dx, it.pos.top + dy,
                      it.pos.right + dx, it.pos.bottom + dy⟩ })

/-- canvas.itemconfig id fill. -/
def Canvas.setFill (c : Canvas) (id : Nat) (f : String) : Canvas :=
  c.updItem id (fun it => { it with fill := f })

/-- canvas.itemconfig id text. -/
def Canvas.setText (c : Canvas) (id : Nat) (t : String) : Canvas :=
  c.updItem id (fun it => { it with text := t })

/-- canvas.create_*: append a new item, return the canvas and the new id. -/
def Canvas.create (c : Canvas) (pos : Pos) (fill : String) (tag : Bool)
    (txt : String) : Canvas × Nat :=
  (⟨c.nextId + 1, c.citems ++ [⟨c.nextId, pos, fill, tag, txt⟩]⟩, c.nextId)

/-- Inclusive axis-aligned box overlap, as used by canvas.find_overlapping. -/
def Pos.overlaps (a b : Pos) : Bool :=
  decide (a.left ≤ b.right) && decide (b.left ≤ a.right) &&
  decide (a.top ≤ b.bottom) && decide (b.top ≤ a.bottom)

/-- canvas.find_overlapping: ids of the items whose box overlaps the query
box, in stacking order. -/
def Canvas.findOverlapping (c : Canvas) (box : Pos) : List Nat :=
  (c.citems.filter (fun it => Pos.overlaps box it.pos)).map (fun it => it.id)

/-- Number of items carrying the brick tag
(len of canvas.find_withtag brick). -/
def Canvas.brickCount (c : Canvas) : Nat :=
  (c.citems.filter (fun it => it.brickTag)).length

/-- Every item id is below the fresh-id counter; true of every canvas the
program builds. -/
def Canvas.WF (c : Canvas) : Prop :=
  ∀ it ∈ c.citems, it.id < c.nextId

instance (c : Canvas) : Decidable c.WF := by
  unfold Canvas.WF; infer_instance

/-- Registry entry: the entity owning a canvas item.  The bricks own their
hit counter; the paddle carries no extra data used by collisions. -/
inductive Reg where
  | paddle : Reg
  | brick : ℤ → Reg
  deriving DecidableEq, Repr

/-- Python dict lookup self.items.get. -/
def lookupReg : List (Nat × Reg) → Nat → Option Reg
  | [], _ => none
  | (k, v) :: rest, id => if k = id then some v else lookupReg rest id

/-- Replace the entry for an id (models in-place mutation of the entity the
dict points at). -/
def setReg : List (Nat × Reg) → Nat → Reg → List (Nat × Reg)
  | [], _, _ => []
  | (k, v) :: rest, id, r =>
      if k = id then (k, r) :: rest else (k, v) :: setReg rest id r

/-- Ball object state that lives outside the canvas: item handle, direction
vector and speed (none models speed = None, the deactivated ball). -/
structure Ball where
  item : Nat
  direction : ℤ × ℤ
  speed : Option ℚ
  deriving DecidableEq, Repr

/-- Ball.init: radius 10, direction [1, -1], speed 10, white oval centred
at (x, y). -/
def Ball.create (c : Canvas) (x y : ℚ) : Canvas × Ball :=
  let r := c.create ⟨x - 10, y - 10, x + 10, y + 10⟩ ("white") false ("")
  (r.1, ⟨r.2, (1, -1), some 10⟩)

/-- Ball.update: read the box, bounce the direction off the left, right and
top walls, then move by direction times speed.  none models the TypeError
raised when coords are missing or speed is None. -/
def Ball.update (c : Canvas) (width : ℚ) (b : Ball) : Option (Canvas × Ball) :=
  match c.coordsOf b.item with
  | none => none
  | some coords =>
    let d0 : ℤ := if coords.left ≤ 0 ∨ coords.right ≥ width
                  then -b.direction.1 else b.direction.1
    let d1 : ℤ := if coords.top ≤ 0 then -b.direction.2 else b.direction.2
    match b.speed with
    | none => none
    | some s =>
        some (c.moveBy b.item ((d0 : ℚ) * s) ((d1 : ℚ) * s),
              { b with direction := (d0, d1) })

/-- The direction-setting part of Ball.collide (lines 86-98): midpoint of
the ball box against the single overlapped box, or a plain vertical flip on
a multi-object overlap. -/
def Ball.collide_dir (c : Canvas) (b : Ball) (objIds : List Nat) :
    Option Ball :=
  match c.coordsOf b.item with
  | none => none
  | some coords =>
    let x := (coords.left + coords.right) / 2
    if 1 < objIds.length then
      some { b with direction := (b.direction.1, -b.direction.2) }
    else
      match objIds with
      | [oid] =>
        match c.coordsOf oid with
        | none => none
        | some oc =>
          if x > oc.right then some { b with direction := (1, b.direction.2) }
          else if x < oc.left then
            some { b with direction := (-1, b.direction.2) }
          else some { b with direction := (b.direction.1, -b.direction.2) }
      | _ => some b

/-- Paddle object state: item handle and the docked ball (the item handle
of the ball whose canvas shape is dragged along pre-launch). -/
structure Paddle where
  item : Nat
  ball : Option Nat
  deriving DecidableEq, Repr

/-- Paddle.move: no-op unless the shifted box stays inside [0, width];
otherwise move the paddle, and the docked ball with it. -/
def Paddle.move (c : Canvas) (width : ℚ) (p : Paddle) (offset : ℚ) : Canvas :=
  match c.coordsOf p.item with
  | none => c
  | some coords =>
    if coords.left + offset ≥ 0 ∧ coords.right + offset ≤ width then
      let c1 := c.moveBy p.item offset 0
      match p.ball with
      | some bid => c1.moveBy bid offset 0
      | none => c1
    else c

/-- Brick object state: item handle and remaining hit points. -/
structure Brick where
  item : Nat
  hits : ℤ
  deriving DecidableEq, Repr

/-- Brick.COLORS: colour keyed by remaining hits; none models a KeyError. -/
def COLORS (h : ℤ) : Option String :=
  if h = 1 then some ("#999999")
  else if h = 2 then some ("#555555")
  else if h = 3 then some ("#222222")
  else none

/-- Brick.hit: decrement hits; delete the canvas item at zero, otherwise
recolour it by the remaining count. -/
def Brick.hit (c : Canvas) (b : Brick) : Option (Canvas × Brick) :=
  let b2 : Brick := { b with hits := b.hits - 1 }
  if b2.hits = 0 then some (c.deleteItem b.item, b2)
  else
    match COLORS b2.hits with
    | some col => some (c.setFill b.item col, b2)
    | none => none

/-- Scheduled callback: the 50ms tick or the 1000ms life reset. -/
inductive Sched where
  | loop : Sched
  | setupG : Sched
  deriving DecidableEq, Repr

/-- The Game object: field geometry, lives, the canvas, the handle-to-entity
registry, the entities, the hud and prompt text handles, whether space is
bound to start_game, and the pending after() callback. -/
structure Game where
  width : ℚ
  height : ℚ
  lives : ℤ
  canvas : Canvas
  items : List (Nat × Reg)
  ball : Option Ball
  paddle : Paddle
  hud : Option Nat
  text : Option Nat
  spaceBound : Bool
  pending : Option (Nat × Sched)
  deriving DecidableEq, Repr

/-- Game.draw_text (the font size only affects rendering and is dropped). -/
def Game.draw_text (g : Game) (x y : ℚ) (txt : String) : Game × Nat :=
  let r := g.canvas.create ⟨x, y, x, y⟩ ("") false txt
  ({ g with canvas := r.1 }, r.2)

/-- Game.update_lives_text. -/
def Game.update_lives_text (g : Game) : Game :=
  let txt := ("Lives: ") ++ toString g.lives
  match g.hud with
  | none =>
    let r := g.draw_text 50 20 txt
    { r.1 with hud := some r.2 }
  | some hid => { g with canvas := g.canvas.setText hid txt }

/-- Game.add_ball: delete the old ball shape, create a fresh ball centred on
the paddle at y = 310 and dock it.  none models the IndexError raised when
the paddle has no coordinates. -/
def Game.add_ball (g : Game) : Option Game :=
  let c0 := match g.ball with
    | some b => g.canvas.deleteItem b.item
    | none => g.canvas
  match c0.coordsOf g.paddle.item with
  | none => none
  | some pc =>
    let x := (pc.left + pc.right) / 2
    let r := Ball.create c0 x 310
    some { g with canvas := r.1, ball := some r.2,
                  paddle := { g.paddle with ball := some r.2.item } }

/-- Game.setup_game: dock a fresh ball, refresh the lives display, show the
start prompt and bind space to start_game. -/
def Game.setup_game (g : Game) : Option Game :=
  match g.add_ball with
  | none => none
  | some g1 =>
    let g2 := g1.update_lives_text
    let r := g2.draw_text 300 200 ("Press Space to start")
    some { r.1 with text := some r.2, spaceBound := true }

/-- The for loop closing Ball.collide: call hit() on every overlapped object
that is a brick, writing the mutated brick back through the registry. -/
def Game.hitBricks (g : Game) : List Nat → Option Game
  | [] => some g
  | id :: rest =>
    match lookupReg g.items id with
    | some (Reg.brick h) =>
      match Brick.hit g.canvas ⟨id, h⟩ with
      | some (c2, b2) =>
          Game.hitBricks
            { g with canvas := c2, items := setReg g.items id (Reg.brick b2.hits) }
            rest
      | none => none
    | _ => Game.hitBricks g rest

/-- Ball.collide: set the new direction from the overlap pattern, then hit
every overlapped brick exactly once. -/
def Ball.collide (g : Game) (objIds : List Nat) : Option Game :=
  match g.ball with
  | none => none
  | some b =>
    match Ball.collide_dir g.canvas b objIds with
    | none => none
    | some b2 => Game.hitBricks { g with ball := some b2 } objIds

/-- Game.check_collisions: overlap query on the ball box, resolved through
the registry (the ball itself and any text items carry no registry entry and
are filtered out), then Ball.collide. -/
def Game.check_collisions (g : Game) : Option Game :=
  match g.ball with
  | none => none
  | some b =>
    match g.canvas.coordsOf b.item with
    | none => none
    | some bc =>
      let ids := g.canvas.findOverlapping bc
      let objIds := ids.filter (fun i => (lookupReg g.items i).isSome)
      Ball.collide g objIds

/-- Game.game_loop: one tick.  Collisions first; then the win branch (brick
count zero), the ball-lost branch (bottom edge past the field height), or an
ordinary advance rescheduling the next tick. -/
def Game.game_loop (g : Game) : Option Game :=
  match g.check_collisions with
  | none => none
  | some g1 =>
    if g1.canvas.brickCount = 0 then
      match g1.ball with
      | none => none
      | some b =>
        let g2 := { g1 with ball := some { b with speed := none } }
        let r3 := g2.draw_text 300 200 ("You win!")
        let r4 := r3.1.draw_text 500 200 ("Press Space to play again")
        some { r4.1 with spaceBound := true, pending := none }
    else
      match g1.ball with
      | none => none
      | some b =>
        match g1.canvas.coordsOf b.item with
        | none => none
        | some bc =>
          if bc.bottom ≥ g1.height then
            let g2 := { g1 with ball := some { b with speed := none },
                                lives := g1.lives - 1 }
            if g2.lives < (0 : ℤ) then
              let r3 := g2.draw_text 300 200 ("Game over!")
              some { r3.1 with pending := none }
            else
              some { g2 with pending := some (1000, Sched.setupG) }
          else
            match Ball.update g1.canvas g1.width b with
            | none => none
            | some (c2, b2) =>
              some { g1 with canvas := c2, ball := some b2,
                             pending := some (50, Sched.loop) }

/-- Game.start_game: unbind space, delete the start prompt, undock the ball,
run the loop body at once. -/
def Game.start_game (g : Game) : Option Game :=
  let c0 := match g.text with
    | some t => g.canvas.deleteItem t
    | none => g.canvas
  Game.game_loop
    { g with canvas := c0, spaceBound := false,
             paddle := { g.paddle with ball := none } }

/-- The direction invariant of the spec: both components are exactly 1
or -1. -/
def dirOK (b : Ball) : Prop :=
  (b.direction.1 = 1 ∨ b.direction.1 = -1) ∧
  (b.direction.2 = 1 ∨ b.direction.2 = -1)

instance (b : Ball) : Decidable (dirOK b) := by
  unfold dirOK; infer_instance

/-! Concrete game states used to instantiate the theorems below.  The
geometry matches the source layout: field 610 by 400, paddle 80 by 10
centred at (305, 326), bricks 75 by 20, ball radius 10. -/

/-- A won round: paddle and free ball on the canvas, no bricks left. -/
def c1Game : Game :=
  { width := 610, height := 400, lives := 3,
    canvas := ⟨5, [⟨1, ⟨265, 321, 345, 331⟩, "blue", false, ""⟩,
                   ⟨3, ⟨295, 100, 315, 120⟩, "white", false, ""⟩]⟩,
    items := [(1, Reg.paddle)],
    ball := some ⟨3, (1, -1), some 10⟩,
    paddle := ⟨1, none⟩, hud := none, text := none,
    spaceBound := false, pending := some (50, Sched.loop) }

/-- A ball inside a one-hit brick (item 2). -/
def c2Game : Game :=
  { width := 610, height := 400, lives := 3,
    canvas := ⟨5, [⟨2, ⟨100, 40, 175, 60⟩, "#999999", true, ""⟩,
                   ⟨3, ⟨120, 50, 140, 70⟩, "white", false, ""⟩]⟩,
    items := [(2, Reg.brick 1)],
    ball := some ⟨3, (1, -1), some 10⟩,
    paddle := ⟨1, none⟩, hud := none, text := none,
    spaceBound := false, pending := some (50, Sched.loop) }

/-- A ball straddling two one-hit bricks (items 2 and 6). -/
def c3Game : Game :=
  { width := 610, height := 400, lives := 3,
    canvas := ⟨7, [⟨1, ⟨265, 321, 345, 331⟩, "blue", false, ""⟩,
                   ⟨2, ⟨100, 40, 175, 60⟩, "#999999", true, ""⟩,
                   ⟨3, ⟨160, 30, 180, 50⟩, "white", false, ""⟩,
                   ⟨6, ⟨175, 40, 250, 60⟩, "#999999", true, ""⟩]⟩,
    items := [(1, Reg.paddle), (2, Reg.brick 1), (6, Reg.brick 1)],
    ball := some ⟨3, (1, -1), some 10⟩,
    paddle := ⟨1, none⟩, hud := none, text := none,
    spaceBound := false, pending := some (50, Sched.loop) }

/-- Expected result of resolving the double overlap of c3Game. -/
def c3Res : Game :=
  { c3Game with
    canvas := ⟨7, [⟨1, ⟨265, 321, 345, 331⟩, "blue", false, ""⟩,
                   ⟨3, ⟨160, 30, 180, 50⟩, "white", false, ""⟩]⟩,
    items := [(1, Reg.paddle), (2, Reg.brick 0), (6, Reg.brick 0)],
    ball := some ⟨3, (1, 1), some 10⟩ }

/-- A leftward ball clipping the right edge of the paddle (item 1). -/
def c4Game : Game :=
  { width := 610, height := 400, lives := 3,
    canvas := ⟨5, [⟨1, ⟨265, 321, 345, 331⟩, "blue", false, ""⟩,
                   ⟨3, ⟨340, 305, 360, 325⟩, "white", false, ""⟩]⟩,
    items := [(1, Reg.paddle)],
    ball := some ⟨3, (-1, -1), some 10⟩,
    paddle := ⟨1, none⟩, hud := none, text := none,
    spaceBound := false, pending := some (50, Sched.loop) }

/-- Expected result of the single-object bounce of c4Game. -/
def c4Res : Game :=
  { c4Game with ball := some ⟨3, (1, -1), some 10⟩ }

/-- One life left, a surviving far-away brick, and the ball at the bottom
edge of the field. -/
def c5Game : Game :=
  { width := 610, height := 400, lives := 1,
    canvas := ⟨6, [⟨1, ⟨265, 321, 345, 331⟩, "blue", false, ""⟩,
                   ⟨2, ⟨100, 40, 175, 60⟩, "#999999", true, ""⟩,
                   ⟨3, ⟨295, 385, 315, 405⟩, "white", false, ""⟩,
                   ⟨4, ⟨50, 20, 50, 20⟩, "", false, "Lives: 1"⟩]⟩,
    items := [(1, Reg.paddle), (2, Reg.brick 1)],
    ball := some ⟨3, (1, 1), some 10⟩,
    paddle := ⟨1, none⟩, hud := some 4, text := none,
    spaceBound := false, pending := some (50, Sched.loop) }

/-- A canvas holding just a ball shape (item 3), away from every wall. -/
def c6Canvas : Canvas :=
  ⟨4, [⟨3, ⟨100, 100, 120, 120⟩, "white", false, ""⟩]⟩

def c6Ball : Ball := ⟨3, (1, -1), some 10⟩

/-- A paddle with a docked ball resting on it. -/
def c7Canvas : Canvas :=
  ⟨5, [⟨1, ⟨265, 321, 345, 331⟩, "blue", false, ""⟩,
       ⟨3, ⟨295, 300, 315, 320⟩, "white", false, ""⟩]⟩

def c7Paddle : Paddle := ⟨1, some 3⟩

/-- A ball inside a single brick, parametrised by the brick hit count. -/
def c8Game (h : ℤ) : Game :=
  { c2Game with items := [(2, Reg.brick h)] }

def c10Canvas : Canvas :=
  ⟨5, [⟨2, ⟨100, 40, 175, 60⟩, "#999999", true, ""⟩]⟩

def c10Brick : Brick := ⟨2, 1⟩

/-! Basic lemmas about the canvas item list and the registry. -/


theorem itemsFind_mem_id (l : List CItem) (j : Nat) (it : CItem)
    (h : itemsFind l j = some it) : it ∈ l ∧ it.id = j := by
  induction l with
  | nil => simp [itemsFind] at h
  | cons a rest ih =>
    by_cases ha : a.id = j
    · simp only [itemsFind, if_pos ha, Option.some.injEq] at h
      subst h
      exact ⟨List.mem_cons_self a rest, ha⟩
    · simp only [itemsFind, if_neg ha] at h
      obtain ⟨hm, hid⟩ := ih h
      exact ⟨List.mem_cons_of_mem a hm, hid⟩

theorem itemsFind_none_of_forall (l : List CItem) (j : Nat)
    (h : ∀ it ∈ l, it.id ≠ j) : itemsFind l j = none := by
  induction l with
  | nil => rfl
  | cons a rest ih =>
    simp only [itemsFind, if_neg (h a (List.mem_cons_self a rest))]
    exact ih (fun it hm => h it (List.mem_cons_of_mem a hm))

theorem itemsFind_none_forall (l : List CItem) (j : Nat)
    (h : itemsFind l j = none) : ∀ it ∈ l, it.id ≠ j := by
  induction l with
  | nil => intro it hm; simp at hm
  | cons a rest ih =>
    intro it hm
    by_cases ha : a.id = j
    · simp [itemsFind, ha] at h
    · simp only [itemsFind, if_neg ha] at h
      rcases List.mem_cons.mp hm with rfl | hm2
      · exact ha
      · exact ih h it hm2

theorem mem_of_mem_erase (l : List CItem) (id : Nat) (it : CItem)
    (h : it ∈ eraseItems l id) : it ∈ l := by
  induction l with
  | nil => simp [eraseItems] at h
  | cons a rest ih =>
    by_cases ha : a.id = id
    · simp only [eraseItems, if_pos ha] at h
      exact List.mem_cons_of_mem a (ih h)
    · simp only [eraseItems, if_neg ha] at h
      rcases List.mem_cons.mp h with rfl | h2
      · exact List.mem_cons_self it rest
      · exact List.mem_cons_of_mem a (ih h2)

theorem itemsFind_erase_self (l : List CItem) (id : Nat) :
    itemsFind (eraseItems l id) id = none := by
  induction l with
  | nil => rfl
  | cons a rest ih =>
    by_cases ha : a.id = id
    · simp only [eraseItems, if_pos ha]
      exact ih
    · simp only [eraseItems, if_neg ha, itemsFind, if_neg ha]
      exact ih

theorem itemsFind_erase_ne (l : List CItem) (id j : Nat) (h : j ≠ id) :
    itemsFind (eraseItems l id) j = itemsFind l j := by
  induction l with
  | nil => rfl
  | cons a rest ih =>
    by_cases ha : a.id = id
    · have h2 : a.id ≠ j := fun hh => h (ha ▸ hh.symm)
      simp only [eraseItems, if_pos ha, itemsFind, if_neg h2]
      exact ih
    · by_cases hj : a.id = j
      · simp only [eraseItems, if_neg ha, itemsFind, if_pos hj]
      · simp only [eraseItems, if_neg ha, itemsFind, if_neg hj]
        exact ih

theorem itemsFind_upd_self (l : List CItem) (id : Nat) (u : CItem → CItem)
    (hu : ∀ it, (u it).id = it.id) :
    itemsFind (updItems l id u) id = (itemsFind l id).map u := by
  induction l with
  | nil => rfl
  | cons a rest ih =>
    by_cases ha : a.id = id
    · simp only [updItems, if_pos ha, itemsFind, hu a, if_pos ha,
        Option.map_some']
    · simp only [updItems, if_neg ha, itemsFind, if_neg ha]
      exact ih

theorem itemsFind_upd_ne (l : List CItem) (id j : Nat) (u : CItem → CItem)
    (hu : ∀ it, (u it).id = it.id) (h : j ≠ id) :
    itemsFind (updItems l id u) j = itemsFind l j := by
  induction l with
  | nil => rfl
  | cons a rest ih =>
    by_cases ha : a.id = id
    · have h2 : a.id ≠ j := fun hh => h (ha ▸ hh.symm)
      simp only [updItems, if_pos ha, itemsFind, hu a, if_neg h2]
      exact ih
    · by_cases hj : a.id = j
      · simp only [updItems, if_neg ha, itemsFind, if_pos hj]
      · simp only [updItems, if_neg ha, itemsFind, if_neg hj]
        exact ih

theorem itemsFind_append (l : List CItem) (x : CItem) (j : Nat) :
    itemsFind (l ++ [x]) j =
      match itemsFind l j with
      | some it => some it
      | none => if x.id = j then some x else none := by
  induction l with
  | nil => rfl
  | cons a rest ih =>
    by_cases ha : a.id = j
    · simp [itemsFind, ha]
    · simp only [List.cons_append, itemsFind, if_neg ha]
      exact ih

theorem not_mem_findOverlapping (c : Canvas) (box : Pos) (j : Nat)
    (h : c.findItem j = none) : j ∉ c.findOverlapping box := by
  intro hmem
  simp only [Canvas.findOverlapping, List.mem_map, List.mem_filter] at hmem
  obtain ⟨it, ⟨hm, _⟩, hid⟩ := hmem
  exact itemsFind_none_forall c.citems j h it hm hid

theorem WF_findItem_lt (c : Canvas) (j : Nat) (it : CItem)
    (hwf : c.WF) (hf : c.findItem j = some it) : j < c.nextId := by
  obtain ⟨hm, hid⟩ := itemsFind_mem_id c.citems j it hf
  exact hid ▸ hwf it hm

theorem lookupReg_set_self (l : List (Nat × Reg)) (id : Nat) (r v : Reg)
    (h : lookupReg l id = some v) : lookupReg (setReg l id r) id = some r := by
  induction l with
  | nil => simp [lookupReg] at h
  | cons a rest ih =>
    obtain ⟨k, w⟩ := a
    by_cases hk : k = id
    · simp [lookupReg, setReg, hk]
    · simp only [lookupReg, setReg, if_neg hk] at h ⊢
      exact ih h

theorem lookupReg_set_ne (l : List (Nat × Reg)) (id j : Nat) (r : Reg)
    (h : j ≠ id) : lookupReg (setReg l id r) j = lookupReg l j := by
  induction l with
  | nil => rfl
  | cons a rest ih =>
    obtain ⟨k, w⟩ := a
    by_cases hk : k = id
    · have h2 : k ≠ j := fun hh => h (hk ▸ hh.symm)
      simp only [setReg, if_pos hk, lookupReg, if_neg h2]
    · by_cases hj : k = j
      · simp only [setReg, if_neg hk, lookupReg, if_pos hj]
      · simp only [setReg, if_neg hk, lookupReg, if_neg hj]
        exact ih


/-! Canvas-level corollaries. -/

theorem findItem_delete_self (c : Canvas) (id : Nat) :
    (c.deleteItem id).findItem id = none :=
  itemsFind_erase_self c.citems id

theorem findItem_delete_ne (c : Canvas) (id j : Nat) (h : j ≠ id) :
    (c.deleteItem id).findItem j = c.findItem j :=
  itemsFind_erase_ne c.citems id j h

theorem findItem_upd_self (c : Canvas) (id : Nat) (u : CItem → CItem)
    (hu : ∀ it, (u it).id = it.id) :
    (c.updItem id u).findItem id = (c.findItem id).map u :=
  itemsFind_upd_self c.citems id u hu

theorem findItem_upd_ne (c : Canvas) (id j : Nat) (u : CItem → CItem)
    (hu : ∀ it, (u it).id = it.id) (h : j ≠ id) :
    (c.updItem id u).findItem j = c.findItem j :=
  itemsFind_upd_ne c.citems id j u hu h

/-! What one Brick.hit call does. -/

theorem hit_cases (c : Canvas) (b : Brick) (c2 : Canvas) (b2 : Brick)
    (h : Brick.hit c b = some (c2, b2)) :
    b2 = { b with hits := b.hits - 1 } ∧
    ((b.hits - 1 = 0 ∧ c2 = c.deleteItem b.item) ∨
     (b.hits - 1 ≠ 0 ∧
        ∃ col, COLORS (b.hits - 1) = some col ∧ c2 = c.setFill b.item col)) := by
  simp only [Brick.hit] at h
  split at h
  · next h0 =>
    simp only [Option.some.injEq, Prod.mk.injEq] at h
    exact ⟨h.2.symm, Or.inl ⟨h0, h.1.symm⟩⟩
  · next h0 =>
    split at h
    · next col hcol =>
      simp only [Option.some.injEq, Prod.mk.injEq] at h
      exact ⟨h.2.symm, Or.inr ⟨h0, col, hcol, h.1.symm⟩⟩
    · exact absurd h (by simp)

theorem hit_findItem_ne (c : Canvas) (b : Brick) (c2 : Canvas) (b2 : Brick)
    (j : Nat) (hj : j ≠ b.item) (h : Brick.hit c b = some (c2, b2)) :
    c2.findItem j = c.findItem j := by
  obtain ⟨-, hc⟩ := hit_cases c b c2 b2 h
  rcases hc with ⟨-, rfl⟩ | ⟨-, col, -, rfl⟩
  · exact findItem_delete_ne c b.item j hj
  · exact findItem_upd_ne c b.item j _ (fun _ => rfl) hj

/-! What the hit loop of Ball.collide does. -/

theorem hitBricks_fields (ids : List Nat) : ∀ (g g' : Game),
    Game.hitBricks g ids = some g' →
    g'.ball = g.ball ∧ g'.paddle = g.paddle ∧ g'.lives = g.lives ∧
    g'.hud = g.hud ∧ g'.text = g.text ∧ g'.spaceBound = g.spaceBound ∧
    g'.pending = g.pending ∧ g'.width = g.width ∧ g'.height = g.height := by
  induction ids with
  | nil =>
    intro g g' h
    simp only [Game.hitBricks, Option.some.injEq] at h
    subst h
    exact ⟨rfl, rfl, rfl, rfl, rfl, rfl, rfl, rfl, rfl⟩
  | cons a rest ih =>
    intro g g' h
    cases hl : lookupReg g.items a with
    | none =>
      simp only [Game.hitBricks, hl] at h
      exact ih g g' h
    | some r =>
      cases r with
      | paddle =>
        simp only [Game.hitBricks, hl] at h
        exact ih g g' h
      | brick hb =>
        simp only [Game.hitBricks, hl] at h
        cases hh : Brick.hit g.canvas ⟨a, hb⟩ with
        | none => simp [hh] at h
        | some p =>
          obtain ⟨c2, b2⟩ := p
          simp only [hh] at h
          have hfe := ih _ g' h
          exact hfe

theorem hitBricks_untouched (ids : List Nat) : ∀ (g g' : Game) (j : Nat),
    j ∉ ids → Game.hitBricks g ids = some g' →
    lookupReg g'.items j = lookupReg g.items j ∧
    g'.canvas.findItem j = g.canvas.findItem j := by
  induction ids with
  | nil =>
    intro g g' j _ h
    simp only [Game.hitBricks, Option.some.injEq] at h
    subst h
    exact ⟨rfl, rfl⟩
  | cons a rest ih =>
    intro g g' j hj h
    have hja : j ≠ a := fun hh => hj (hh ▸ List.mem_cons_self a rest)
    have hjr : j ∉ rest := fun hh => hj (List.mem_cons_of_mem a hh)
    cases hl : lookupReg g.items a with
    | none =>
      simp only [Game.hitBricks, hl] at h
      exact ih g g' j hjr h
    | some r =>
      cases r with
      | paddle =>
        simp only [Game.hitBricks, hl] at h
        exact ih g g' j hjr h
      | brick hb =>
        simp only [Game.hitBricks, hl] at h
        cases hh : Brick.hit g.canvas ⟨a, hb⟩ with
        | none => simp [hh] at h
        | some p =>
          obtain ⟨c2, b2⟩ := p
          simp only [hh] at h
          obtain ⟨h1, h2⟩ := ih _ g' j hjr h
          refine ⟨?_, ?_⟩
          · rw [h1]
            exact lookupReg_set_ne g.items a j (Reg.brick b2.hits) hja
          · rw [h2]
            exact hit_findItem_ne g.canvas ⟨a, hb⟩ c2 b2 j hja hh

theorem hitBricks_hit (ids : List Nat) : ∀ (g g' : Game) (j : Nat) (hv : ℤ),
    ids.Nodup → j ∈ ids → lookupReg g.items j = some (Reg.brick hv) →
    Game.hitBricks g ids = some g' →
    lookupReg g'.items j = some (Reg.brick (hv - 1)) ∧
    (hv = 1 → g'.canvas.findItem j = none) := by
  induction ids with
  | nil => intro g g' j hv _ hmem; simp at hmem
  | cons a rest ih =>
    intro g g' j hv hnd hmem hreg h
    have hndr : rest.Nodup := (List.nodup_cons.mp hnd).2
    have hna : a ∉ rest := (List.nodup_cons.mp hnd).1
    rcases List.mem_cons.mp hmem with rfl | hmr
    · -- the head is the brick in question
      simp only [Game.hitBricks, hreg] at h
      cases hh : Brick.hit g.canvas ⟨j, hv⟩ with
      | none => simp [hh] at h
      | some p =>
        obtain ⟨c2, b2⟩ := p
        simp only [hh] at h
        obtain ⟨hb2, hcc⟩ := hit_cases g.canvas ⟨j, hv⟩ c2 b2 hh
        have hb2hits : b2.hits = hv - 1 := by rw [hb2]
        obtain ⟨h1, h2⟩ := hitBricks_untouched rest _ g' j hna h
        constructor
        · rw [h1, hb2hits]
          exact lookupReg_set_self g.items j (Reg.brick (hv - 1)) _ hreg
        · intro hv1
          rw [h2]
          rcases hcc with ⟨-, rfl⟩ | ⟨hne, -⟩
          · exact findItem_delete_self g.canvas j
          · exact absurd (by rw [hv1]; ring) hne
    · -- the brick in question sits further down the list
      have hja : j ≠ a := fun hh => hna (hh ▸ hmr)
      cases hl : lookupReg g.items a with
      | none =>
        simp only [Game.hitBricks, hl] at h
        exact ih g g' j hv hndr hmr hreg h
      | some r =>
        cases r with
        | paddle =>
          simp only [Game.hitBricks, hl] at h
          exact ih g g' j hv hndr hmr hreg h
        | brick hb =>
          simp only [Game.hitBricks, hl] at h
          cases hh : Brick.hit g.canvas ⟨a, hb⟩ with
          | none => simp [hh] at h
          | some p =>
            obtain ⟨c2, b2⟩ := p
            simp only [hh] at h
            refine ih _ g' j hv hndr hmr ?_ h
            show lookupReg (setReg g.items a (Reg.brick b2.hits)) j =
              some (Reg.brick hv)
            rw [lookupReg_set_ne g.items a j (Reg.brick b2.hits) hja]
            exact hreg


/-! The direction step of Ball.collide. -/

theorem collide_dir_multi (c : Canvas) (b : Ball) (ids : List Nat) (b2 : Ball)
    (hlen : 1 < ids.length) (h : Ball.collide_dir c b ids = some b2) :
    b2 = { b with direction := (b.direction.1, -b.direction.2) } := by
  cases hc : c.coordsOf b.item with
  | none => simp [Ball.collide_dir, hc] at h
  | some coords =>
    simp only [Ball.collide_dir, hc, if_pos hlen, Option.some.injEq] at h
    exact h.symm

theorem collide_dir_single (c : Canvas) (b : Ball) (oid : Nat) (bc oc : Pos)
    (hbc : c.coordsOf b.item = some bc) (hoc : c.coordsOf oid = some oc) :
    Ball.collide_dir c b [oid] =
      some (if (bc.left + bc.right) / 2 > oc.right then
              { b with direction := (1, b.direction.2) }
            else if (bc.left + bc.right) / 2 < oc.left then
              { b with direction := (-1, b.direction.2) }
            else { b with direction := (b.direction.1, -b.direction.2) }) := by
  simp only [Ball.collide_dir, hbc, hoc, List.length_singleton,
    lt_self_iff_false, if_false]
  split_ifs <;> rfl

theorem collide_dir_dirOK (c : Canvas) (b : Ball) (ids : List Nat) (b2 : Ball)
    (hok : dirOK b) (h : Ball.collide_dir c b ids = some b2) : dirOK b2 := by
  have hneg : ∀ z : ℤ, (z = 1 ∨ z = -1) → (-z = 1 ∨ -z = -1) := by
    intro z hz
    rcases hz with rfl | rfl
    · right; rfl
    · left; rfl
  cases hc : c.coordsOf b.item with
  | none => simp [Ball.collide_dir, hc] at h
  | some coords =>
    simp only [Ball.collide_dir, hc] at h
    split at h
    · obtain rfl := Option.some.inj h |>.symm
      exact ⟨hok.1, hneg _ hok.2⟩
    · split at h
      · split at h
        · simp [Ball.collide_dir] at h
        · split at h
          · obtain rfl := Option.some.inj h |>.symm
            exact ⟨Or.inl rfl, hok.2⟩
          · split at h
            · obtain rfl := Option.some.inj h |>.symm
              exact ⟨Or.inr rfl, hok.2⟩
            · obtain rfl := Option.some.inj h |>.symm
              exact ⟨hok.1, hneg _ hok.2⟩
      · obtain rfl := Option.some.inj h |>.symm
        exact hok

/-- Inversion for Ball.collide: a successful resolution factors into the
direction step and the brick-hit loop. -/
theorem collide_inv (g : Game) (ids : List Nat) (g' : Game) (b : Ball)
    (hb : g.ball = some b) (h : Ball.collide g ids = some g') :
    ∃ b2, Ball.collide_dir g.canvas b ids = some b2 ∧
      Game.hitBricks { g with ball := some b2 } ids = some g' := by
  simp only [Ball.collide, hb] at h
  cases hcd : Ball.collide_dir g.canvas b ids with
  | none => simp [hcd] at h
  | some b2 =>
    simp only [hcd] at h
    exact ⟨b2, rfl, h⟩


theorem findItem_moveBy_self (c : Canvas) (id : Nat) (dx dy : ℚ) :
    (c.moveBy id dx dy).findItem id = (c.findItem id).map (fun it =>
      { it with pos := ⟨it.pos.left + dx, it.pos.top + dy,
                        it.pos.right + dx, it.pos.bottom + dy⟩ }) :=
  findItem_upd_self c id _ (fun _ => rfl)

theorem findItem_moveBy_ne (c : Canvas) (id j : Nat) (dx dy : ℚ)
    (h : j ≠ id) : (c.moveBy id dx dy).findItem j = c.findItem j :=
  findItem_upd_ne c id j _ (fun _ => rfl) h

theorem findItem_setFill_self (c : Canvas) (id : Nat) (f : String) :
    (c.setFill id f).findItem id =
      (c.findItem id).map (fun it => { it with fill := f }) :=
  findItem_upd_self c id _ (fun _ => rfl)

theorem findItem_setFill_ne (c : Canvas) (id j : Nat) (f : String)
    (h : j ≠ id) : (c.setFill id f).findItem j = c.findItem j :=
  findItem_upd_ne c id j _ (fun _ => rfl) h

theorem findItem_setText_self (c : Canvas) (id : Nat) (t : String) :
    (c.setText id t).findItem id =
      (c.findItem id).map (fun it => { it with text := t }) :=
  findItem_upd_self c id _ (fun _ => rfl)

theorem findItem_setText_ne (c : Canvas) (id j : Nat) (t : String)
    (h : j ≠ id) : (c.setText id t).findItem j = c.findItem j :=
  findItem_upd_ne c id j _ (fun _ => rfl) h

theorem coordsOf_moveBy_self (c : Canvas) (id : Nat) (dx dy : ℚ) (p : Pos)
    (h : c.coordsOf id = some p) :
    (c.moveBy id dx dy).coordsOf id =
      some ⟨p.left + dx, p.top + dy, p.right + dx, p.bottom + dy⟩ := by
  obtain ⟨it, hit, hpos⟩ : ∃ it, c.findItem id = some it ∧ it.pos = p := by
    cases hf : c.findItem id with
    | none => simp [Canvas.coordsOf, hf] at h
    | some it => exact ⟨it, rfl, by simpa [Canvas.coordsOf, hf] using h⟩
  rw [Canvas.coordsOf, findItem_moveBy_self, hit]
  simp [hpos]

theorem coordsOf_moveBy_ne (c : Canvas) (id j : Nat) (dx dy : ℚ) (h : j ≠ id) :
    (c.moveBy id dx dy).coordsOf j = c.coordsOf j := by
  rw [Canvas.coordsOf, findItem_moveBy_ne c id j dx dy h, Canvas.coordsOf]

theorem neg_unit (z : ℤ) (hz : z = 1 ∨ z = -1) : -z = 1 ∨ -z = -1 := by
  rcases hz with rfl | rfl
  · right; rfl
  · left; rfl

/-! The claims. -/

/-- C10: for a brick with hits in one, two or three, Brick.hit is total and
never fails: the counter drops by exactly one into zero, one or two; the
canvas item is deleted exactly when the counter reaches zero; and on the
non-zero branch the colour table is consulted only at the new count, for
which a colour is defined. -/
theorem brick_hit_total (c : Canvas) (b : Brick)
    (h : b.hits = 1 ∨ b.hits = 2 ∨ b.hits = 3) :
    ∃ c2 b2, Brick.hit c b = some (c2, b2) ∧
      b2.item = b.item ∧ b2.hits = b.hits - 1 ∧
      (b2.hits = 0 ∨ b2.hits = 1 ∨ b2.hits = 2) ∧
      (b2.hits = 0 ↔ b.hits = 1) ∧
      (b.hits = 1 → c2 = c.deleteItem b.item) ∧
      (b.hits ≠ 1 →
        ∃ col, COLORS b2.hits = some col ∧ c2 = c.setFill b.item col) := by
  obtain ⟨bi, bh⟩ := b
  rcases h with h1 | h1 | h1 <;> subst h1
  · exact ⟨c.deleteItem bi, ⟨bi, 0⟩, by norm_num [Brick.hit], rfl, rfl,
      Or.inl rfl, by norm_num, fun _ => rfl, fun hne => absurd rfl hne⟩
  · refine ⟨c.setFill bi ("#999999"), ⟨bi, 1⟩, by norm_num [Brick.hit, COLORS],
      rfl, rfl, Or.inr (Or.inl rfl), by norm_num, by norm_num, ?_⟩
    intro _
    exact ⟨_, by norm_num [COLORS], rfl⟩
  · refine ⟨c.setFill bi ("#555555"), ⟨bi, 2⟩, by norm_num [Brick.hit, COLORS],
      rfl, rfl, Or.inr (Or.inr rfl), by norm_num, by norm_num, ?_⟩
    intro _
    exact ⟨_, by norm_num [COLORS], rfl⟩

/-- C6: Ball.update flips the horizontal direction when the box touches or
crosses the left wall (left edge at most 0) or the right wall (right edge at
least the field width), flips the vertical direction only when the top edge
is at most 0 (never at the bottom edge, whose value the result does not
depend on), and then displaces the ball by direction times speed. -/
theorem ball_update_bounce (c : Canvas) (w : ℚ) (b : Ball) (p : Pos) (s : ℚ)
    (hp : c.coordsOf b.item = some p) (hs : b.speed = some s) :
    ∃ c2 b2, Ball.update c w b = some (c2, b2) ∧
      b2.direction.1 = (if p.left ≤ 0 ∨ p.right ≥ w then -b.direction.1
                        else b.direction.1) ∧
      b2.direction.2 = (if p.top ≤ 0 then -b.direction.2
                        else b.direction.2) ∧
      b2.item = b.item ∧ b2.speed = b.speed ∧
      c2 = c.moveBy b.item ((b2.direction.1 : ℚ) * s)
                           ((b2.direction.2 : ℚ) * s) ∧
      c2.coordsOf b.item = some ⟨p.left + (b2.direction.1 : ℚ) * s,
                                 p.top + (b2.direction.2 : ℚ) * s,
                                 p.right + (b2.direction.1 : ℚ) * s,
                                 p.bottom + (b2.direction.2 : ℚ) * s⟩ := by
  simp only [Ball.update, hp, hs]
  refine ⟨_, _, rfl, rfl, rfl, rfl, rfl, rfl, ?_⟩
  exact coordsOf_moveBy_self c b.item _ _ p hp

/-- C7: Paddle.move with an offset that would push the paddle box outside
the field is a complete no-op; an in-bounds offset shifts the paddle box,
and a docked ball box, horizontally by exactly the offset, leaving both
vertical extents and every other item unchanged. -/
theorem paddle_move_clamp (c : Canvas) (w : ℚ) (p : Paddle) (off : ℚ)
    (pc : Pos) (hpc : c.coordsOf p.item = some pc) :
    (¬ (pc.left + off ≥ 0 ∧ pc.right + off ≤ w) → Paddle.move c w p off = c) ∧
    ((pc.left + off ≥ 0 ∧ pc.right + off ≤ w) →
      (p.ball = none →
        (Paddle.move c w p off).coordsOf p.item =
          some ⟨pc.left + off, pc.top, pc.right + off, pc.bottom⟩ ∧
        ∀ j, j ≠ p.item → (Paddle.move c w p off).coordsOf j = c.coordsOf j) ∧
      (∀ bid, p.ball = some bid → bid ≠ p.item →
        (Paddle.move c w p off).coordsOf p.item =
          some ⟨pc.left + off, pc.top, pc.right + off, pc.bottom⟩ ∧
        (∀ bc2, c.coordsOf bid = some bc2 →
          (Paddle.move c w p off).coordsOf bid =
            some ⟨bc2.left + off, bc2.top, bc2.right + off, bc2.bottom⟩) ∧
        ∀ j, j ≠ p.item → j ≠ bid →
          (Paddle.move c w p off).coordsOf j = c.coordsOf j)) := by
  constructor
  · intro hout
    simp only [Paddle.move, hpc, if_neg hout]
  · intro hin
    constructor
    · intro hpb
      have hmv : Paddle.move c w p off = c.moveBy p.item off 0 := by
        simp only [Paddle.move, hpc, if_pos hin, hpb]
      rw [hmv]
      constructor
      · have := coordsOf_moveBy_self c p.item off 0 pc hpc
        simpa using this
      · intro j hj
        exact coordsOf_moveBy_ne c p.item j off 0 hj
    · intro bid hpb hne
      have hmv : Paddle.move c w p off =
          (c.moveBy p.item off 0).moveBy bid off 0 := by
        simp only [Paddle.move, hpc, if_pos hin, hpb]
      rw [hmv]
      refine ⟨?_, ?_, ?_⟩
      · rw [coordsOf_moveBy_ne (c.moveBy p.item off 0) bid p.item off 0
          (fun hh => hne hh.symm)]
        have := coordsOf_moveBy_self c p.item off 0 pc hpc
        simpa using this
      · intro bc2 hbc2
        have h1 : (c.moveBy p.item off 0).coordsOf bid = some bc2 := by
          rw [coordsOf_moveBy_ne c p.item bid off 0 hne]
          exact hbc2
        have := coordsOf_moveBy_self (c.moveBy p.item off 0) bid off 0 bc2 h1
        simpa using this
      · intro j hj1 hj2
        rw [coordsOf_moveBy_ne _ bid j off 0 hj2,
            coordsOf_moveBy_ne c p.item j off 0 hj1]

/-- C9: both components of the direction vector are exactly 1 or -1 in every
reachable ball state: the constructor starts at (1, -1), Ball.update only
negates components, and Ball.collide only negates components or assigns 1
or -1. -/
theorem ball_dir_unit :
    (∀ (c : Canvas) (x y : ℚ), dirOK (Ball.create c x y).2) ∧
    (∀ (c : Canvas) (w : ℚ) (b : Ball) (r : Canvas × Ball),
        dirOK b → Ball.update c w b = some r → dirOK r.2) ∧
    (∀ (g g' : Game) (ids : List Nat) (b b2 : Ball),
        g.ball = some b → dirOK b → Ball.collide g ids = some g' →
        g'.ball = some b2 → dirOK b2) := by
  refine ⟨?_, ?_, ?_⟩
  · intro c x y
    exact ⟨Or.inl rfl, Or.inr rfl⟩
  · intro c w b r hok hupd
    cases hc : c.coordsOf b.item with
    | none => simp [Ball.update, hc] at hupd
    | some coords =>
      cases hs : b.speed with
      | none => simp [Ball.update, hc, hs] at hupd
      | some s =>
        simp only [Ball.update, hc, hs, Option.some.injEq] at hupd
        rw [← hupd]
        refine ⟨?_, ?_⟩
        · dsimp only
          split_ifs
          · exact neg_unit _ hok.1
          · exact hok.1
        · dsimp only
          split_ifs
          · exact neg_unit _ hok.2
          · exact hok.2
  · intro g g' ids b b2 hb hok hcol hb2
    obtain ⟨bm, hcd, hrun⟩ := collide_inv g ids g' b hb hcol
    have hfe := hitBricks_fields ids _ g' hrun
    have hball : g'.ball = some bm := hfe.1
    rw [hball] at hb2
    obtain rfl := Option.some.inj hb2
    exact collide_dir_dirOK _ _ _ _ hok hcd

/-- C3: a collision with more than one overlapping object flips the vertical
direction exactly once and leaves the horizontal direction unchanged, and
every overlapping brick is hit exactly once: its counter drops by exactly
one, and a one-hit brick is removed from the canvas. -/
theorem collide_multi_overlap (g g' : Game) (b : Ball) (ids : List Nat)
    (hb : g.ball = some b) (hnd : ids.Nodup) (hlen : 1 < ids.length)
    (hcol : Ball.collide g ids = some g') :
    (∃ b2, g'.ball = some b2 ∧ b2.direction.1 = b.direction.1 ∧
       b2.direction.2 = -b.direction.2) ∧
    (∀ j hv, j ∈ ids → lookupReg g.items j = some (Reg.brick hv) →
       lookupReg g'.items j = some (Reg.brick (hv - 1)) ∧
       (hv = 1 → g'.canvas.findItem j = none)) := by
  obtain ⟨b2, hcd, hrun⟩ := collide_inv g ids g' b hb hcol
  obtain rfl := collide_dir_multi g.canvas b ids b2 hlen hcd
  have hfe := hitBricks_fields ids _ g' hrun
  constructor
  · exact ⟨_, hfe.1, rfl, rfl⟩
  · intro j hv hmem hreg
    refine hitBricks_hit ids _ g' j hv hnd hmem ?_ hrun
    exact hreg

/-- C4: a collision with exactly one overlapping object whose box is proper
(left edge at most right edge) forces the horizontal direction to 1 when the
ball midpoint is strictly right of the box, to -1 when strictly left of it,
and otherwise flips the vertical direction leaving the horizontal one
unchanged. -/
theorem collide_single_bounce (g g' : Game) (b : Ball) (oid : Nat)
    (bc oc : Pos) (hb : g.ball = some b)
    (hbc : g.canvas.coordsOf b.item = some bc)
    (hoc : g.canvas.coordsOf oid = some oc) (hwb : oc.left ≤ oc.right)
    (hcol : Ball.collide g [oid] = some g') :
    ∃ b2, g'.ball = some b2 ∧
      ((bc.left + bc.right) / 2 > oc.right →
         b2.direction = (1, b.direction.2)) ∧
      ((bc.left + bc.right) / 2 < oc.left →
         b2.direction = (-1, b.direction.2)) ∧
      (¬ (bc.left + bc.right) / 2 > oc.right →
       ¬ (bc.left + bc.right) / 2 < oc.left →
         b2.direction = (b.direction.1, -b.direction.2)) := by
  obtain ⟨b2, hcd, hrun⟩ := collide_inv g [oid] g' b hb hcol
  rw [collide_dir_single g.canvas b oid bc oc hbc hoc] at hcd
  obtain rfl := Option.some.inj hcd
  have hfe := hitBricks_fields [oid] _ g' hrun
  refine ⟨_, hfe.1, ?_, ?_, ?_⟩
  · intro h1
    rw [if_pos h1]
  · intro h2
    have hn1 : ¬ (bc.left + bc.right) / 2 > oc.right := by
      intro h1
      linarith
    rw [if_neg hn1, if_pos h2]
  · intro hn1 hn2
    rw [if_neg hn1, if_neg hn2]


/-- C8: a ball overlapping exactly one brick destroys a one-hit brick (the
canvas item disappears and no later overlap query returns it) while a
two-hit brick survives with one hit left and the colour of one-hit bricks,
still on the canvas. -/
theorem collide_single_brick (g : Game) (b : Ball) (bid : Nat) (hv : ℤ)
    (it0 : CItem) (bc : Pos) (hb : g.ball = some b)
    (hbc : g.canvas.coordsOf b.item = some bc)
    (hit0 : g.canvas.findItem bid = some it0)
    (hreg : lookupReg g.items bid = some (Reg.brick hv)) :
    (hv = 1 → ∃ g', Ball.collide g [bid] = some g' ∧
       g'.canvas.findItem bid = none ∧
       (∀ box, bid ∉ g'.canvas.findOverlapping box)) ∧
    (hv = 2 → ∃ g', Ball.collide g [bid] = some g' ∧
       lookupReg g'.items bid = some (Reg.brick 1) ∧
       g'.canvas.findItem bid = some { it0 with fill := "#999999" }) := by
  have hoc : g.canvas.coordsOf bid = some it0.pos := by
    rw [Canvas.coordsOf, hit0]
    rfl
  obtain ⟨bIf, hcd⟩ : ∃ x, Ball.collide_dir g.canvas b [bid] = some x :=
    ⟨_, collide_dir_single g.canvas b bid bc it0.pos hbc hoc⟩
  constructor
  · intro h1
    subst h1
    have hhit : Brick.hit g.canvas ⟨bid, 1⟩ =
        some (g.canvas.deleteItem bid, ⟨bid, 0⟩) := by
      norm_num [Brick.hit]
    refine ⟨{ g with ball := some bIf, canvas := g.canvas.deleteItem bid, items := setReg g.items bid (Reg.brick 0) }, ?_, ?_, ?_⟩
    · simp only [Ball.collide, hb, hcd, Game.hitBricks, hreg, hhit]
    · exact findItem_delete_self g.canvas bid
    · intro box
      exact not_mem_findOverlapping _ box bid (findItem_delete_self g.canvas bid)
  · intro h2
    subst h2
    have hhit : Brick.hit g.canvas ⟨bid, 2⟩ =
        some (g.canvas.setFill bid ("#999999"), ⟨bid, 1⟩) := by
      norm_num [Brick.hit, COLORS]
    refine ⟨{ g with ball := some bIf, canvas := g.canvas.setFill bid ("#999999"), items := setReg g.items bid (Reg.brick 1) }, ?_, ?_, ?_⟩
    · simp only [Ball.collide, hb, hcd, Game.hitBricks, hreg, hhit]
    · exact lookupReg_set_self g.items bid (Reg.brick 1) _ hreg
    · have hfi : (g.canvas.setFill bid ("#999999")).findItem bid =
          some { it0 with fill := "#999999" } := by
        rw [findItem_setFill_self, hit0]
        rfl
      exact hfi

/-- C2 counterexample: in c2Game the one-hit brick (handle 2) is destroyed
by the collision, yet its entry survives in the world registry Game.items
with a zero counter, while its canvas item is gone; the claim that the
handle is removed from both the registry and the spatial index is false at
this input. -/
theorem brick_registry_stale_cex :
    (Ball.collide c2Game [2]).map
      (fun g' => (lookupReg g'.items 2, g'.canvas.findItem 2)) =
    some (some (Reg.brick 0), none) := by decide

/-- C2 amended: a brick whose counter reaches zero through hit() is removed
from the spatial index (its canvas item is deleted, so no later overlap
query returns it and it can never be hit again), but its registry entry is
retained with a zero counter rather than removed. -/
theorem brick_removal_amended (g : Game) (bid : Nat)
    (hreg : lookupReg g.items bid = some (Reg.brick 1)) :
    ∃ g', Game.hitBricks g [bid] = some g' ∧
      lookupReg g'.items bid = some (Reg.brick 0) ∧
      g'.canvas.findItem bid = none ∧
      ∀ box, bid ∉ g'.canvas.findOverlapping box := by
  have hhit : Brick.hit g.canvas ⟨bid, 1⟩ =
      some (g.canvas.deleteItem bid, ⟨bid, 0⟩) := by
    norm_num [Brick.hit]
  refine ⟨{ g with canvas := g.canvas.deleteItem bid, items := setReg g.items bid (Reg.brick 0) }, ?_, ?_, ?_, ?_⟩
  · simp only [Game.hitBricks, hreg, hhit]
  · exact lookupReg_set_self g.items bid (Reg.brick 0) _ hreg
  · exact findItem_delete_self g.canvas bid
  · intro box
    exact not_mem_findOverlapping _ box bid (findItem_delete_self g.canvas bid)

/-- C1: the round-win claim fails on the code.  From a won round (c1Game has
no bricks) the tick deactivates the ball and rebinds space, but the restart
path start_game never repopulates the brick grid and never docks a fresh
ball: after the launch signal the brick count is still zero, the paddle
holds no docked ball, and the ball is still deactivated, so the game merely
redraws the win screen. -/
theorem round_win_restart_bug :
    ((Game.game_loop c1Game).bind Game.start_game).map
      (fun g2 => (g2.canvas.brickCount, g2.paddle.ball,
                  g2.ball.map (fun b => b.speed), g2.spaceBound)) =
    some (0, none, some none, true) := by decide


/-- What Game.setup_game produces on a well-formed state: a fresh ball of
speed 10 docked on the paddle centre at height 310, a refreshed lives
display in the hud item, and the start prompt bound to space. -/
theorem setup_game_spec (g : Game) (b : Ball) (pc : Pos) (hid : Nat)
    (hudIt : CItem) (hb : g.ball = some b) (hwf : g.canvas.WF)
    (hpne : g.paddle.item ≠ b.item)
    (hpc : g.canvas.coordsOf g.paddle.item = some pc)
    (hhud : g.hud = some hid) (hhine : hid ≠ b.item)
    (hhit : g.canvas.findItem hid = some hudIt) :
    ∃ g3 b3, Game.setup_game g = some g3 ∧
      g3.ball = some b3 ∧ b3.speed = some 10 ∧
      g3.paddle.ball = some b3.item ∧
      g3.canvas.coordsOf b3.item =
        some ⟨(pc.left + pc.right) / 2 - 10, 300,
              (pc.left + pc.right) / 2 + 10, 320⟩ ∧
      g3.canvas.textOf hid = some (("Lives: ") ++ toString g.lives) ∧
      g3.spaceBound = true := by
  have hhit' : itemsFind g.canvas.citems hid = some hudIt := hhit
  have hfresh0 :
      itemsFind (eraseItems g.canvas.citems b.item) g.canvas.nextId = none := by
    apply itemsFind_none_of_forall
    intro it hm
    exact Nat.ne_of_lt (hwf it (mem_of_mem_erase _ _ _ hm))
  have hpc0 : (Canvas.mk g.canvas.nextId (eraseItems g.canvas.citems b.item)).coordsOf g.paddle.item = some pc := by
    show (g.canvas.deleteItem b.item).coordsOf g.paddle.item = some pc
    rw [Canvas.coordsOf, findItem_delete_ne g.canvas b.item g.paddle.item hpne]
    exact hpc
  have hhidlt : hid < g.canvas.nextId := WF_findItem_lt g.canvas hid hudIt hwf hhit
  have hnidhid : g.canvas.nextId ≠ hid := fun hh => absurd (hh ▸ hhidlt) (lt_irrefl _)
  cases hs : Game.setup_game g with
  | none =>
    simp [Game.setup_game, Game.add_ball, hb, hpc0, Ball.create,
      Canvas.create, Game.update_lives_text, hhud, Game.draw_text,
      Canvas.deleteItem, Canvas.setText, Canvas.updItem] at hs
  | some g3 =>
  have hs2 := hs
  simp only [Game.setup_game, Game.add_ball, hb, hpc0, Ball.create,
    Canvas.create, Game.update_lives_text, hhud, Game.draw_text,
    Canvas.deleteItem, Canvas.setText, Canvas.updItem,
    Option.some.injEq] at hs2
  subst hs2
  refine ⟨_, _, rfl, rfl, rfl, rfl, ?_, ?_, rfl⟩
  · -- coordinates of the freshly docked ball
    rw [Canvas.coordsOf, Canvas.findItem]
    rw [itemsFind_append]
    rw [itemsFind_upd_ne _ hid g.canvas.nextId
      (fun it => { it with text := ("Lives: ") ++ toString g.lives })
      (fun _ => rfl) hnidhid]
    rw [itemsFind_append, hfresh0]
    norm_num
  · -- the refreshed lives display
    have t1 : itemsFind (eraseItems g.canvas.citems b.item ++
        [⟨g.canvas.nextId, ⟨(pc.left + pc.right) / 2 - 10, 310 - 10,
          (pc.left + pc.right) / 2 + 10, 310 + 10⟩, "white", false, ""⟩])
        hid = some hudIt := by
      rw [itemsFind_append, itemsFind_erase_ne g.canvas.citems b.item hid hhine,
        hhit']
    rw [Canvas.textOf, Canvas.findItem]
    rw [itemsFind_append]
    rw [itemsFind_upd_self _ hid
      (fun it => { it with text := ("Lives: ") ++ toString g.lives })
      (fun _ => rfl), t1]
    rfl


/-- C5: on a tick with bricks left and the ball at or past the bottom of the
field, the ball is deactivated and a life is lost; if the new count is
negative the game-over text is drawn and nothing is scheduled, otherwise the
delayed setup_game is scheduled, which docks a fresh live ball on the paddle
centre and refreshes the lives display while awaiting a new launch. -/
theorem life_loss_reset (g g1 : Game) (b1 : Ball) (bc pc : Pos) (hid : Nat)
    (hudIt : CItem)
    (hcc : g.check_collisions = some g1)
    (hb1 : g1.ball = some b1)
    (hnum : g1.canvas.brickCount ≠ 0)
    (hbc : g1.canvas.coordsOf b1.item = some bc)
    (hbot : bc.bottom ≥ g1.height)
    (hwf : g1.canvas.WF)
    (hpne : g1.paddle.item ≠ b1.item)
    (hpc : g1.canvas.coordsOf g1.paddle.item = some pc)
    (hhud : g1.hud = some hid)
    (hhine : hid ≠ b1.item)
    (hhit : g1.canvas.findItem hid = some hudIt) :
    ∃ g2, Game.game_loop g = some g2 ∧
      g2.ball = some { b1 with speed := none } ∧
      g2.lives = g1.lives - 1 ∧
      (g1.lives - 1 < 0 →
        g2.pending = none ∧
        g2.canvas.textOf g1.canvas.nextId = some ("Game over!")) ∧
      (0 ≤ g1.lives - 1 →
        g2.pending = some (1000, Sched.setupG) ∧
        ∃ g3 b3, Game.setup_game g2 = some g3 ∧
          g3.ball = some b3 ∧ b3.speed = some 10 ∧
          g3.paddle.ball = some b3.item ∧
          g3.canvas.coordsOf b3.item =
            some ⟨(pc.left + pc.right) / 2 - 10, 300,
                  (pc.left + pc.right) / 2 + 10, 320⟩ ∧
          g3.canvas.textOf hid = some (("Lives: ") ++ toString (g1.lives - 1)) ∧
          g3.spaceBound = true) := by
  have hfreshg1 : itemsFind g1.canvas.citems g1.canvas.nextId = none :=
    itemsFind_none_of_forall _ _ (fun it hm => Nat.ne_of_lt (hwf it hm))
  by_cases hl : g1.lives - 1 < 0
  · cases hloop : Game.game_loop g with
    | none =>
      simp [Game.game_loop, hcc, hnum, hb1, hbc, hbot, hl,
        Game.draw_text, Canvas.create] at hloop
    | some g2 =>
      have h2 := hloop
      simp only [Game.game_loop, hcc, hnum, hb1, hbc, hbot, hl,
        Game.draw_text, Canvas.create, ite_true, ite_false, if_true, if_false,
        eq_self_iff_true, not_true, not_false_iff, iff_true, iff_false,
        Option.some.injEq] at h2
      subst h2
      refine ⟨_, rfl, rfl, rfl, ?_, ?_⟩
      · intro _
        refine ⟨rfl, ?_⟩
        rw [Canvas.textOf, Canvas.findItem, itemsFind_append, hfreshg1]
        simp
      · intro h0
        exact absurd hl (not_lt.mpr h0)
  · cases hloop : Game.game_loop g with
    | none =>
      simp [Game.game_loop, hcc, hnum, hb1, hbc, hbot, hl,
        Game.draw_text, Canvas.create] at hloop
    | some g2 =>
      have h2 := hloop
      simp only [Game.game_loop, hcc, hnum, hb1, hbc, hbot, hl,
        Game.draw_text, Canvas.create, ite_true, ite_false, if_true, if_false,
        eq_self_iff_true, not_true, not_false_iff, iff_true, iff_false,
        Option.some.injEq] at h2
      subst h2
      refine ⟨_, rfl, rfl, rfl, ?_, ?_⟩
      · intro h0
        exact absurd h0 hl
      · intro _
        refine ⟨rfl, ?_⟩
        exact setup_game_spec _ { b1 with speed := none } pc hid hudIt rfl
          hwf hpne hpc hhud hhine hhit


/-! Concrete instantiations of the theorems above. -/

theorem brick_removal_amended_w :
    ∃ g', Game.hitBricks c2Game [2] = some g' ∧
      lookupReg g'.items 2 = some (Reg.brick 0) ∧
      g'.canvas.findItem 2 = none ∧
      ∀ box, (2 : Nat) ∉ g'.canvas.findOverlapping box :=
  brick_removal_amended c2Game 2 rfl

theorem collide_multi_overlap_w :
    (∃ b2, c3Res.ball = some b2 ∧
       b2.direction.1 = (1 : ℤ) ∧ b2.direction.2 = -(-1 : ℤ)) ∧
    (∀ j hv, j ∈ [2, 6] → lookupReg c3Game.items j = some (Reg.brick hv) →
       lookupReg c3Res.items j = some (Reg.brick (hv - 1)) ∧
       (hv = 1 → c3Res.canvas.findItem j = none)) :=
  collide_multi_overlap c3Game c3Res ⟨3, (1, -1), some 10⟩ [2, 6] rfl
    (by decide) (by decide) (by decide)

theorem collide_single_bounce_w :
    ∃ b2, c4Res.ball = some b2 ∧
      (((340 : ℚ) + 360) / 2 > 345 → b2.direction = (1, -1)) ∧
      (((340 : ℚ) + 360) / 2 < 265 → b2.direction = (-1, -1)) ∧
      (¬ ((340 : ℚ) + 360) / 2 > 345 → ¬ ((340 : ℚ) + 360) / 2 < 265 →
         b2.direction = (-1, -(-1 : ℤ))) :=
  collide_single_bounce c4Game c4Res ⟨3, (-1, -1), some 10⟩ 1
    ⟨340, 305, 360, 325⟩ ⟨265, 321, 345, 331⟩ rfl (by decide) (by decide)
    (by decide) (by decide)

theorem life_loss_reset_w :
    ∃ g2, Game.game_loop c5Game = some g2 ∧
      g2.ball = some ⟨3, (1, 1), none⟩ ∧
      g2.lives = (1 : ℤ) - 1 ∧
      ((1 : ℤ) - 1 < 0 → g2.pending = none ∧
        g2.canvas.textOf 6 = some ("Game over!")) ∧
      (0 ≤ (1 : ℤ) - 1 → g2.pending = some (1000, Sched.setupG) ∧
        ∃ g3 b3, Game.setup_game g2 = some g3 ∧
          g3.ball = some b3 ∧ b3.speed = some 10 ∧
          g3.paddle.ball = some b3.item ∧
          g3.canvas.coordsOf b3.item =
            some ⟨((265 : ℚ) + 345) / 2 - 10, 300,
                  ((265 : ℚ) + 345) / 2 + 10, 320⟩ ∧
          g3.canvas.textOf 4 = some (("Lives: ") ++ toString ((1 : ℤ) - 1)) ∧
          g3.spaceBound = true) :=
  life_loss_reset c5Game c5Game ⟨3, (1, 1), some 10⟩ ⟨295, 385, 315, 405⟩
    ⟨265, 321, 345, 331⟩ 4 ⟨4, ⟨50, 20, 50, 20⟩, "", false, "Lives: 1"⟩
    (by decide) rfl (by decide) (by decide) (by decide) (by decide)
    (by decide) (by decide) rfl (by decide) (by decide)

theorem ball_update_bounce_w :
    ∃ c2 b2, Ball.update c6Canvas 610 c6Ball = some (c2, b2) ∧
      b2.direction.1 = (if (100 : ℚ) ≤ 0 ∨ (120 : ℚ) ≥ 610 then -(1 : ℤ)
                        else (1 : ℤ)) ∧
      b2.direction.2 = (if (100 : ℚ) ≤ 0 then -(-1 : ℤ) else (-1 : ℤ)) ∧
      b2.item = 3 ∧ b2.speed = some 10 ∧
      c2 = c6Canvas.moveBy 3 ((b2.direction.1 : ℚ) * 10)
                            ((b2.direction.2 : ℚ) * 10) ∧
      c2.coordsOf 3 = some ⟨100 + (b2.direction.1 : ℚ) * 10,
                            100 + (b2.direction.2 : ℚ) * 10,
                            120 + (b2.direction.1 : ℚ) * 10,
                            120 + (b2.direction.2 : ℚ) * 10⟩ :=
  ball_update_bounce c6Canvas 610 c6Ball ⟨100, 100, 120, 120⟩ 10
    (by decide) rfl

theorem paddle_move_clamp_w :
    (¬ ((265 : ℚ) + 10 ≥ 0 ∧ (345 : ℚ) + 10 ≤ 610) →
       Paddle.move c7Canvas 610 c7Paddle 10 = c7Canvas) ∧
    (((265 : ℚ) + 10 ≥ 0 ∧ (345 : ℚ) + 10 ≤ 610) →
      (c7Paddle.ball = none →
        (Paddle.move c7Canvas 610 c7Paddle 10).coordsOf 1 =
          some ⟨265 + 10, 321, 345 + 10, 331⟩ ∧
        ∀ j, j ≠ 1 → (Paddle.move c7Canvas 610 c7Paddle 10).coordsOf j =
          c7Canvas.coordsOf j) ∧
      (∀ bid, c7Paddle.ball = some bid → bid ≠ 1 →
        (Paddle.move c7Canvas 610 c7Paddle 10).coordsOf 1 =
          some ⟨265 + 10, 321, 345 + 10, 331⟩ ∧
        (∀ bc2, c7Canvas.coordsOf bid = some bc2 →
          (Paddle.move c7Canvas 610 c7Paddle 10).coordsOf bid =
            some ⟨bc2.left + 10, bc2.top, bc2.right + 10, bc2.bottom⟩) ∧
        ∀ j, j ≠ 1 → j ≠ bid →
          (Paddle.move c7Canvas 610 c7Paddle 10).coordsOf j =
            c7Canvas.coordsOf j)) :=
  paddle_move_clamp c7Canvas 610 c7Paddle 10 ⟨265, 321, 345, 331⟩ (by decide)

theorem collide_single_brick_w :
    ((1 : ℤ) = 1 → ∃ g', Ball.collide (c8Game 1) [2] = some g' ∧
       g'.canvas.findItem 2 = none ∧
       (∀ box, (2 : Nat) ∉ g'.canvas.findOverlapping box)) ∧
    ((1 : ℤ) = 2 → ∃ g', Ball.collide (c8Game 1) [2] = some g' ∧
       lookupReg g'.items 2 = some (Reg.brick 1) ∧
       g'.canvas.findItem 2 =
         some ⟨2, ⟨100, 40, 175, 60⟩, "#999999", true, ""⟩) :=
  collide_single_brick (c8Game 1) ⟨3, (1, -1), some 10⟩ 2 1
    ⟨2, ⟨100, 40, 175, 60⟩, "#999999", true, ""⟩ ⟨120, 50, 140, 70⟩ rfl
    (by decide) (by decide) (by decide)

theorem ball_dir_unit_w :
    dirOK (⟨3, (1, -1), some 10⟩ : Ball) :=
  ball_dir_unit.2.1 c6Canvas 610 c6Ball
    (c6Canvas.moveBy 3 10 (-10), ⟨3, (1, -1), some 10⟩) (by decide) (by decide)

theorem brick_hit_total_w :
    ∃ c2 b2, Brick.hit c10Canvas c10Brick = some (c2, b2) ∧
      b2.item = 2 ∧ b2.hits = (1 : ℤ) - 1 ∧
      (b2.hits = 0 ∨ b2.hits = 1 ∨ b2.hits = 2) ∧
      (b2.hits = 0 ↔ (1 : ℤ) = 1) ∧
      ((1 : ℤ) = 1 → c2 = c10Canvas.deleteItem 2) ∧
      ((1 : ℤ) ≠ 1 →
        ∃ col, COLORS b2.hits = some col ∧ c2 = c10Canvas.setFill 2 col) :=
  brick_hit_total c10Canvas c10Brick (Or.inl rfl)

end Pong
